import Mathlib

set_option linter.unusedVariables false

namespace KeyboardViewer

/-! Shallow embedding of the keyboard-viewer core: the layer resolver
(`src/utils/modifiers.ts`), the key-output lookup and key-class helpers
(`src/utils/key-helpers.ts`), the keyboard input engine
(`src/hooks/useKeyboard.ts`), and the kbdgen layout transformer
(`src/utils/kbdgen-transform.ts`, provided as `src/unnamed/part_006`).
JavaScript objects with string keys are modelled as association lists
(`List (String × String)` etc.); `undefined` becomes `Option.none`;
JavaScript string truthiness (empty string is falsy) is made explicit. -/

/-- JavaScript `a || b` on an optional string: an absent or empty string falls
back to `b`. -/
def jsOr (a : Option String) (b : String) : String :=
  match a with
  | some s => if s = "" then b else s
  | none => b

/-- JavaScript truthiness of an optional string: present and non-empty. -/
def jsTruthy (o : Option String) : Bool :=
  match o with
  | some s => s != ""
  | none => false

/-! ## `src/utils/modifiers.ts` -/

/-- Modifier state: the five desktop flags, as in `interface ModifierState`. -/
structure ModifierState where
  shift : Bool
  caps : Bool
  alt : Bool
  cmd : Bool
  ctrl : Bool
deriving DecidableEq, Repr

/-- `createModifierState()`: all modifiers off. -/
def createModifierState : ModifierState :=
  { shift := false, caps := false, alt := false, cmd := false, ctrl := false }

/-- `getActiveLayer(modifiers)`: the chained-conditional layer resolver of
`src/utils/modifiers.ts` lines 45-72, translated branch for branch. -/
def getActiveLayer (modifiers : ModifierState) : String :=
  let shift := modifiers.shift
  let caps := modifiers.caps
  let alt := modifiers.alt
  let cmd := modifiers.cmd
  let ctrl := modifiers.ctrl
  if cmd && alt && shift then "cmd+alt+shift"
  else if cmd && alt then "cmd+alt"
  else if cmd && shift then "cmd+shift"
  else if cmd then "cmd"
  else if alt && shift then "alt+shift"
  else if alt && caps then "alt+caps"
  else if alt then "alt"
  else if ctrl && shift then "ctrl+shift"
  else if ctrl then "ctrl"
  else if caps && shift then "caps+shift"
  else if caps then "caps"
  else if shift then "shift"
  else "default"

/-! ## `src/constants/key-ids.ts` -/

def SHIFT_KEYS : List String := ["ShiftLeft", "ShiftRight"]

def ALT_KEYS : List String := ["AltLeft", "AltRight"]

def CMD_KEYS : List String := ["MetaLeft", "MetaRight"]

def CTRL_KEYS : List String := ["ControlLeft", "ControlRight"]

def CAPS_LOCK_KEY : String := "CapsLock"

def MOBILE_SYMBOLS_KEY : String := "MobileSymbols"

def MOBILE_SYMBOLS2_KEY : String := "MobileSymbols2"

def SYMBOLS_KEYS : List String := [MOBILE_SYMBOLS_KEY, MOBILE_SYMBOLS2_KEY]

def BACKSPACE_KEY : String := "Backspace"

def ENTER_KEY : String := "Enter"

def TAB_KEY : String := "Tab"

/-! ## `src/types/keyboard-simple.ts` -/

/-- A key of the internal layout model.  `layers` is the TS `KeyLayers`
object, modelled as an association list from layer name to output string
(fields absent in the object are simply absent from the list). -/
structure Key where
  id : String
  layers : List (String × String)
  label : Option String := none
  width : Option Rat := none
  height : Option Rat := none
  type : Option String := none
deriving DecidableEq, Repr

structure KeyRow where
  keys : List Key
deriving DecidableEq, Repr

/-- Deadkey table: deadkey trigger character to (base character to composed
character), as in `DeadkeyCombinations`. -/
abbrev DeadkeyTable := List (String × List (String × String))

structure KeyboardLayout where
  id : String
  name : String
  rows : List KeyRow
  deadkeys : Option DeadkeyTable := none
  isMobile : Option Bool := none
  platform : Option String := none
  variant : Option String := none
deriving DecidableEq, Repr

/-! ## `src/utils/key-helpers.ts` -/

def isShiftKey (keyId : String) : Bool :=
  SHIFT_KEYS.any (fun k => k == keyId)

def isCapsLockKey (keyId : String) : Bool :=
  keyId == CAPS_LOCK_KEY

def isAltKey (keyId : String) : Bool :=
  ALT_KEYS.any (fun k => k == keyId)

def isCmdKey (keyId : String) : Bool :=
  CMD_KEYS.any (fun k => k == keyId)

def isCtrlKey (keyId : String) : Bool :=
  CTRL_KEYS.any (fun k => k == keyId)

def isSymbolsKey (keyId : String) : Bool :=
  SYMBOLS_KEYS.any (fun k => k == keyId)

def isSymbols2Key (keyId : String) : Bool :=
  keyId == MOBILE_SYMBOLS2_KEY

def isModifierKey (keyId : String) : Bool :=
  isShiftKey keyId || isCapsLockKey keyId || isAltKey keyId || isCmdKey keyId ||
    isCtrlKey keyId || isSymbolsKey keyId

/-- `getKeyOutput(key, layer)` from `src/utils/key-helpers.ts`: return the
entry for `layer` whenever the object has it (`output !== undefined`, so a
present empty string is returned as is); otherwise, for "symbols-2" only,
fall back to a truthy "symbols-1" entry; otherwise `key.layers.default || ""`.
The TS guard `if (!key.layers) return ""` cannot fire here because `layers`
is a required field of `Key`. -/
def getKeyOutput (key : Key) (layer : String) : String :=
  match key.layers.lookup layer with
  | some output => output
  | none =>
    if layer == "symbols-2" && jsTruthy (key.layers.lookup "symbols-1") then
      (key.layers.lookup "symbols-1").getD ""
    else
      jsOr (key.layers.lookup "default") ""

/-! ## `src/hooks/useKeyboard.ts` — the keyboard input engine

The signals of the hook become the fields of `EngineState`; the callbacks
`onTextOutput` / `onBackspace` / `onClear` become emitted `OutputEvent`s;
each handler becomes a function from state to state plus the list of events
it emitted, in order. -/

inductive OutputEvent where
  | text (s : String)
  | backspaceRequest
  | clearRequest
deriving DecidableEq, Repr

structure EngineState where
  pressedKeyId : Option String := none
  isShiftActive : Bool := false
  shiftClickMode : Bool := false
  isCapsLockActive : Bool := false
  isAltActive : Bool := false
  altClickMode : Bool := false
  isCmdActive : Bool := false
  cmdClickMode : Bool := false
  isCtrlActive : Bool := false
  ctrlClickMode : Bool := false
  isSymbolsActive : Bool := false
  isSymbols2Active : Bool := false
  pendingDeadkey : Option String := none
deriving DecidableEq, Repr

def initialEngineState : EngineState := {}

/-- The computed `activeLayer` signal: mobile symbols mode picks
"symbols-1" / "symbols-2", otherwise the desktop resolver runs on the five
modifier flags. -/
def activeLayer (s : EngineState) : String :=
  if s.isSymbolsActive then
    if s.isSymbols2Active then "symbols-2" else "symbols-1"
  else
    getActiveLayer
      { shift := s.isShiftActive, caps := s.isCapsLockActive,
        alt := s.isAltActive, cmd := s.isCmdActive, ctrl := s.isCtrlActive }

/-- `exitClickModes()`: deactivate every modifier that is in click mode and
clear its click-mode flag. -/
def exitClickModes (s : EngineState) : EngineState :=
  let s := if s.shiftClickMode then
    { s with isShiftActive := false, shiftClickMode := false } else s
  let s := if s.altClickMode then
    { s with isAltActive := false, altClickMode := false } else s
  let s := if s.cmdClickMode then
    { s with isCmdActive := false, cmdClickMode := false } else s
  let s := if s.ctrlClickMode then
    { s with isCtrlActive := false, ctrlClickMode := false } else s
  s

/-- `layout?.deadkeys ?? {}`. -/
def deadkeyCombinations (layout : Option KeyboardLayout) : DeadkeyTable :=
  match layout with
  | some l => l.deadkeys.getD []
  | none => []

/-- `isDeadkey(char)`: `char in deadkeyCombinations`. -/
def isDeadkey (layout : Option KeyboardLayout) (char : String) : Bool :=
  ((deadkeyCombinations layout).lookup char).isSome

/-- `getDeadkeyCombination(deadkey, char)`:
`deadkeyCombinations[deadkey]?.[char] ?? null`. -/
def getDeadkeyCombination (layout : Option KeyboardLayout) (deadkey char : String) :
    Option String :=
  ((deadkeyCombinations layout).lookup deadkey).bind (fun m => m.lookup char)

/-- `findKeyByCode(code)`: first key of the first row containing a key whose
id equals the physical key code. -/
def findKeyByCode (layout : KeyboardLayout) (code : String) : Option Key :=
  layout.rows.findSome? (fun row => row.keys.find? (fun k => k.id == code))

/-- `handleKeyClick(key)`: one virtual key activation.  Returns the new state
together with the emitted output events, in emission order. -/
def handleKeyClick (layout : Option KeyboardLayout) (key : Key) (s : EngineState) :
    EngineState × List OutputEvent :=
  if isShiftKey key.id then
    if s.isSymbolsActive then
      ({ s with isSymbols2Active := !s.isSymbols2Active }, [])
    else
      let newShift := !s.isShiftActive
      ({ s with isShiftActive := newShift, shiftClickMode := newShift }, [])
  else if isCapsLockKey key.id then
    ({ s with isCapsLockActive := !s.isCapsLockActive }, [])
  else if isAltKey key.id then
    let newAlt := !s.isAltActive
    ({ s with isAltActive := newAlt, altClickMode := newAlt }, [])
  else if isCmdKey key.id then
    let newCmd := !s.isCmdActive
    ({ s with isCmdActive := newCmd, cmdClickMode := newCmd }, [])
  else if isCtrlKey key.id then
    let newCtrl := !s.isCtrlActive
    ({ s with isCtrlActive := newCtrl, ctrlClickMode := newCtrl }, [])
  else if isSymbolsKey key.id then
    let newSymbols := !s.isSymbolsActive
    let s1 := { s with isSymbolsActive := newSymbols }
    (if !newSymbols then { s1 with isSymbols2Active := false } else s1, [])
  else if key.id == BACKSPACE_KEY then
    match s.pendingDeadkey with
    | some _ => (exitClickModes { s with pendingDeadkey := none }, [])
    | none => (exitClickModes s, [OutputEvent.backspaceRequest])
  else if key.id == ENTER_KEY then
    match s.pendingDeadkey with
    | some dk =>
      (exitClickModes { s with pendingDeadkey := none }, [OutputEvent.text dk, OutputEvent.text "\n"])
    | none => (exitClickModes s, [OutputEvent.text "\n"])
  else if key.id == TAB_KEY then
    match s.pendingDeadkey with
    | some dk =>
      (exitClickModes { s with pendingDeadkey := none }, [OutputEvent.text dk, OutputEvent.text "\t"])
    | none => (exitClickModes s, [OutputEvent.text "\t"])
  else
    let output := getKeyOutput key (activeLayer s)
    if output == "" then (s, [])
    else
      let charToAdd := output
      match s.pendingDeadkey with
      | some dk =>
        let events := match getDeadkeyCombination layout dk charToAdd with
          | some combination => [OutputEvent.text combination]
          | none => [OutputEvent.text (dk ++ charToAdd)]
        (exitClickModes { s with pendingDeadkey := none }, events)
      | none =>
        if isDeadkey layout charToAdd then
          (exitClickModes { s with pendingDeadkey := some charToAdd }, [])
        else
          (exitClickModes s, [OutputEvent.text charToAdd])

/-- Physical `keydown`.  The effect of the hook installs no listeners when the
active layout is absent (`if (!layout) return`), so with `none` the event is
a no-op.  Modifier keys set their flag in hold mode; CapsLock toggles;
printable keys set `pressedKeyId` and run `handleKeyClick`. -/
def handleKeyDown (layout : Option KeyboardLayout) (code : String) (s : EngineState) :
    EngineState × List OutputEvent :=
  match layout with
  | none => (s, [])
  | some l =>
    match findKeyByCode l code with
    | none => (s, [])
    | some key =>
      if isShiftKey key.id then
        ({ s with pressedKeyId := some key.id, isShiftActive := true, shiftClickMode := false }, [])
      else if isCapsLockKey key.id then
        ({ s with isCapsLockActive := !s.isCapsLockActive }, [])
      else if isAltKey key.id then
        ({ s with pressedKeyId := some key.id, isAltActive := true, altClickMode := false }, [])
      else if isCmdKey key.id then
        ({ s with pressedKeyId := some key.id, isCmdActive := true, cmdClickMode := false }, [])
      else if isCtrlKey key.id then
        ({ s with pressedKeyId := some key.id, isCtrlActive := true, ctrlClickMode := false }, [])
      else
        handleKeyClick (some l) key { s with pressedKeyId := some key.id }

/-- Physical `keyup`: release held modifiers (unless click-latched) and clear
the pressed-key indicator.  As with `keydown`, absent layout means no
listener, hence a no-op. -/
def handleKeyUp (layout : Option KeyboardLayout) (code : String) (s : EngineState) :
    EngineState × List OutputEvent :=
  match layout with
  | none => (s, [])
  | some l =>
    let s1 := match findKeyByCode l code with
      | none => s
      | some key =>
        let a := if isShiftKey key.id && !s.shiftClickMode then
          { s with isShiftActive := false } else s
        let b := if isAltKey key.id && !s.altClickMode then
          { a with isAltActive := false } else a
        let c := if isCmdKey key.id && !s.cmdClickMode then
          { b with isCmdActive := false } else b
        if isCtrlKey key.id && !s.ctrlClickMode then
          { c with isCtrlActive := false } else c
    ({ s1 with pressedKeyId := none }, [])

/-- `clearState()`: reset every flag and signal and notify the consumer. -/
def clearEngineState (s : EngineState) : EngineState × List OutputEvent :=
  (initialEngineState, [OutputEvent.clearRequest])

/-- Sequence of virtual clicks, accumulating emitted events. -/
def runClicks (layout : Option KeyboardLayout) (keys : List Key) (s : EngineState) :
    EngineState × List OutputEvent :=
  keys.foldl
    (fun acc k =>
      let r := handleKeyClick layout k acc.1
      (r.1, acc.2 ++ r.2))
    (s, [])

/-! ## `src/unnamed/part_006` — the kbdgen layout transformer -/

/-- kbdgen transform table: deadkey to (base character to composed). -/
abbrev KbdgenTransform := List (String × List (String × String))

/-- A kbdgen layer bundle: layer name to multi-line layer string, modelling
the optional fields of `interface KbdgenLayers` that are present. -/
abbrev KbdgenLayersData := List (String × String)

/-- `KbdgenPrimary` / `KbdgenMobileVariant`: an optional layer bundle. -/
structure KbdgenMobileVariant where
  layers : Option KbdgenLayersData := none
deriving DecidableEq, Repr

/-- `KbdgenPlatformData`: primary group, mobile variant groups and the
platform-specific transform table (`space` / `deadKeys` are never read by the
transformer and are omitted). -/
structure KbdgenPlatformData where
  primary : Option KbdgenMobileVariant := none
  iPad9in : Option KbdgenMobileVariant := none
  iPad12in : Option KbdgenMobileVariant := none
  tablet600 : Option KbdgenMobileVariant := none
  transforms : Option KbdgenTransform := none
deriving DecidableEq, Repr

/-- `KbdgenLayout`: the parsed kbdgen YAML document. -/
structure KbdgenLayout where
  displayNames : List (String × String) := []
  locale : Option String := none
  macOS : Option KbdgenPlatformData := none
  windows : Option KbdgenPlatformData := none
  android : Option KbdgenPlatformData := none
  iOS : Option KbdgenPlatformData := none
  chrome : Option KbdgenPlatformData := none
  chromeOS : Option KbdgenPlatformData := none
  transforms : Option KbdgenTransform := none
deriving DecidableEq, Repr

/-- The dynamic access `kbdgenData[platform as keyof KbdgenLayout]`,
restricted to the six platform-valued fields (the recognised platform
names). -/
def KbdgenLayout.platformField (d : KbdgenLayout) (platform : String) :
    Option KbdgenPlatformData :=
  if platform = "macOS" then d.macOS
  else if platform = "windows" then d.windows
  else if platform = "android" then d.android
  else if platform = "iOS" then d.iOS
  else if platform = "chrome" then d.chrome
  else if platform = "chromeOS" then d.chromeOS
  else none

/-- The six platform names a `KbdgenLayout` can carry. -/
def platformKeys : List String :=
  ["macOS", "windows", "android", "iOS", "chrome", "chromeOS"]

/-- The dynamic access `platformData[variant as keyof KbdgenPlatformData]`
for variant groups.  Any other name yields a value without a usable
`layers` field, observationally `none`. -/
def KbdgenPlatformData.variantField (p : KbdgenPlatformData) (variant : String) :
    Option KbdgenMobileVariant :=
  if variant = "primary" then p.primary
  else if variant = "iPad-9in" then p.iPad9in
  else if variant = "iPad-12in" then p.iPad12in
  else if variant = "tablet-600" then p.tablet600
  else none

/-- `isMobilePlatform(platform)`. -/
def isMobilePlatform (platform : String) : Bool :=
  platform == "iOS" || platform == "android"

/-- JavaScript `line.trim().split(/\s+/)`: on a trimmed line, whitespace-run
splitting; the empty string yields `[""]`. -/
def splitWhitespaceJS (line : String) : List String :=
  let t := line.trim
  let ws := (t.split Char.isWhitespace).filter (fun w => w != "")
  if ws.isEmpty then [""] else ws

/-- `parseLayerString(layerString)`: trim, split into lines, tokenize each
line. -/
def parseLayerString (layerString : String) : List (List String) :=
  (layerString.trim.splitOn "\n").map splitWhitespaceJS

/-- Character-fold decimal value of a digit list (for `parseFloat`). -/
def digitsVal (l : List Char) : Nat :=
  l.foldl (fun a c => 10 * a + (c.toNat - 48)) 0

/-- JavaScript `parseFloat` on a string drawn from `[0-9.]+`: longest prefix
`digits [ "." digits ]`; `none` models `NaN` (no leading digits and no
fractional digit). -/
def parseFloatJS (s : String) : Option Rat :=
  let cs := s.toList
  let intPart := cs.takeWhile Char.isDigit
  let rest := cs.drop intPart.length
  match rest with
  | '.' :: rest2 =>
    let fracPart := rest2.takeWhile Char.isDigit
    if intPart.isEmpty && fracPart.isEmpty then none
    else some ((digitsVal intPart : Rat) + (digitsVal fracPart : Rat) / ((10 : Rat) ^ fracPart.length))
  | _ => if intPart.isEmpty then none else some (digitsVal intPart : Rat)

/-- One parsed mobile key token, as in `interface ParsedMobileKey`.  A
`width` of `none` models `NaN` (falsy, like `0`). -/
structure ParsedMobileKey where
  char : String
  width : Option Rat := none
  specialType : Option String := none
deriving DecidableEq, Repr

/-- JavaScript `w || 1.0` on a stored width (`none` = NaN, `0` falsy). -/
def jsWidthOr (w : Option Rat) (fb : Rat) : Rat :=
  match w with
  | some r => if r = 0 then fb else r
  | none => fb

/-- Attempt of the regex `\\s\{([^:}]+)(?::([0-9.]+))?\}` at the head of the
character list: `name` captured up to `:` or the closing brace, then an
optional `:width` group. -/
def matchSpecialAt (cs : List Char) : Option (String × Option String) :=
  match cs with
  | '\\' :: 's' :: '\x7b' :: rest =>
    let name := rest.takeWhile (fun c => c != ':' && c != '\x7d')
    let rest2 := rest.dropWhile (fun c => c != ':' && c != '\x7d')
    if name.isEmpty then none
    else
      match rest2 with
      | '\x7d' :: _ => some (String.mk name, none)
      | ':' :: rest3 =>
        let w := rest3.takeWhile (fun c => c.isDigit || c == '.')
        let rest4 := rest3.dropWhile (fun c => c.isDigit || c == '.')
        if w.isEmpty then none
        else
          match rest4 with
          | '\x7d' :: _ => some (String.mk name, some (String.mk w))
          | _ => none
      | _ => none
  | _ => none

/-- Unanchored search of the special-key regex, as `String.prototype.match`
does: try every start position, first hit wins. -/
def findSpecialMatch : List Char → Option (String × Option String)
  | [] => none
  | c :: rest =>
    match matchSpecialAt (c :: rest) with
    | some m => some m
    | none => findSpecialMatch rest

/-- `parseMobileKey(keyString)`: special-key token, spacer (dropped,
`none`) or literal character key. -/
def parseMobileKey (keyString : String) : Option ParsedMobileKey :=
  match findSpecialMatch keyString.toList with
  | some (specialType, w) =>
    let width : Option Rat :=
      match w with
      | some ws => parseFloatJS ws
      | none => some 1
    if specialType = "spacer" then none
    else some { char := "", width := width, specialType := some specialType }
  | none => some { char := keyString, width := some 1 }

/-- `parseMobileLayerString(layerString)`: per line, tokenize, parse each
token and drop spacers. -/
def parseMobileLayerString (layerString : String) : List (List ParsedMobileKey) :=
  (layerString.trim.splitOn "\n").map
    (fun line => (splitWhitespaceJS line).filterMap parseMobileKey)

/-- The layer selection inside `extractPlatformData`: non-primary variants of
a mobile platform read the variant group, everything else reads
`primary?.layers`. -/
def resolvedLayers (platformData : KbdgenPlatformData) (platform variant : String) :
    Option KbdgenLayersData :=
  if variant != "primary" && isMobilePlatform platform then
    (platformData.variantField variant).bind (fun v => v.layers)
  else
    platformData.primary.bind (fun v => v.layers)

/-- Transformer failures: `extractPlatformData` throws
`Platform "..." not found in layout` (the `UnsupportedPlatformError` of the spec)
or `No layers found for platform "..." variant "..."` (the
`MissingLayerError` of the spec); `transformMobileLayout` additionally has an
unreachable `No default layer found for mobile layout` throw. -/
inductive TransformError where
  | unsupportedPlatform (platform : String)
  | missingLayer (platform variant : String)
  | noDefaultMobile
deriving DecidableEq, Repr

/-- `{...(kbdgenData.transforms || {}), ...platformTransforms}`: shallow
merge, platform-specific entries replace same-key top-level entries. -/
def mergeTransforms (base override : KbdgenTransform) : KbdgenTransform :=
  base.filter (fun p => (override.lookup p.1).isNone) ++ override

/-- `extractPlatformData(kbdgenData, platform, variant = "primary")`. -/
def extractPlatformData (d : KbdgenLayout) (platform variant : String) :
    Except TransformError (KbdgenLayersData × KbdgenTransform) :=
  match d.platformField platform with
  | none => .error (.unsupportedPlatform platform)
  | some platformData =>
    match resolvedLayers platformData platform variant with
    | none => .error (.missingLayer platform variant)
    | some layers =>
      if jsOr (layers.lookup "default") "" = "" then
        .error (.missingLayer platform variant)
      else
        .ok (layers,
          mergeTransforms (d.transforms.getD []) (platformData.transforms.getD []))

/-- Display-name precedence `displayNames?.en || locale || fallback`. -/
def displayNameOr (d : KbdgenLayout) (fallback : String) : String :=
  jsOr (d.displayNames.lookup "en") (jsOr d.locale fallback)

/-- The ISO physical key rows of `ISO_KEY_POSITIONS`. -/
def isoRow1 : List String :=
  ["Backquote", "Digit1", "Digit2", "Digit3", "Digit4", "Digit5", "Digit6",
    "Digit7", "Digit8", "Digit9", "Digit0", "Minus", "Equal"]

def isoRow2 : List String :=
  ["KeyQ", "KeyW", "KeyE", "KeyR", "KeyT", "KeyY", "KeyU", "KeyI", "KeyO",
    "KeyP", "BracketLeft", "BracketRight"]

def isoRow3 : List String :=
  ["KeyA", "KeyS", "KeyD", "KeyF", "KeyG", "KeyH", "KeyJ", "KeyK", "KeyL",
    "Semicolon", "Quote", "Backslash"]

def isoRow4 : List String :=
  ["IntlBackslash", "KeyZ", "KeyX", "KeyC", "KeyV", "KeyB", "KeyN", "KeyM",
    "Comma", "Period", "Slash"]

/-! The `SPECIAL_KEYS` catalogue. -/

def backspaceKey : Key :=
  { id := "Backspace", layers := [("default", "\x08")], label := some "⌫",
    width := some 2, type := some "modifier" }

def tabKey : Key :=
  { id := "Tab", layers := [("default", "\t")], label := some "Tab",
    width := some 1.5, type := some "modifier" }

def enterKey : Key :=
  { id := "Enter", layers := [("default", "\n")], label := some "Enter",
    width := some 1.3, height := some 2.075, type := some "enter" }

def capsLockKey : Key :=
  { id := "CapsLock", layers := [("default", "")], label := some "Caps",
    width := some 1.75, type := some "modifier" }

def shiftLeftKey : Key :=
  { id := "ShiftLeft", layers := [("default", "")], label := some "Shift",
    width := some 1.25, type := some "modifier" }

def shiftRightKey : Key :=
  { id := "ShiftRight", layers := [("default", "")], label := some "Shift",
    width := some 2.75, type := some "modifier" }

def controlLeftKey : Key :=
  { id := "ControlLeft", layers := [("default", "")], label := some "Ctrl",
    width := some 1.25, type := some "modifier" }

def metaLeftKey : Key :=
  { id := "MetaLeft", layers := [("default", "")], label := some "⌘",
    width := some 1.25, type := some "modifier" }

def altLeftKey : Key :=
  { id := "AltLeft", layers := [("default", "")], label := some "Alt",
    width := some 1.25, type := some "modifier" }

def spaceKey : Key :=
  { id := "Space", layers := [("default", " ")], label := some "",
    width := some 6.25, type := some "space" }

def altRightKey : Key :=
  { id := "AltRight", layers := [("default", "")], label := some "Alt",
    width := some 1.25, type := some "modifier" }

def metaRightKey : Key :=
  { id := "MetaRight", layers := [("default", "")], label := some "⌘",
    width := some 1.25, type := some "modifier" }

def controlRightKey : Key :=
  { id := "ControlRight", layers := [("default", "")], label := some "Ctrl",
    width := some 1.25, type := some "modifier" }

/-- The twelve non-default layer names scanned by `createKeyboardRow`. -/
def desktopLayerNames : List String :=
  ["shift", "caps", "caps+shift", "alt", "alt+shift", "ctrl", "ctrl+shift",
    "cmd", "cmd+shift", "cmd+alt", "cmd+alt+shift", "alt+caps"]

/-- The default-layer cell `layersData.default?.[rowIndex]?.[keyIndex] || ""`
read by `createKeyboardRow`. -/
def desktopDefaultCell (layersData : List (String × List (List String)))
    (rowIndex keyIndex : Nat) : String :=
  (((layersData.lookup "default").bind (fun g => g[rowIndex]?)).bind
    (fun row => row[keyIndex]?)).getD ""

/-- The non-default layer entries collected by the inner loop of `createKeyboardRow`: a layer contributes only when its row exists and the cell is present
and non-empty. -/
def desktopExtraLayers (layersData : List (String × List (List String)))
    (rowIndex keyIndex : Nat) : List (String × String) :=
  desktopLayerNames.filterMap fun layerName =>
    match (layersData.lookup layerName).bind (fun g => g[rowIndex]?) with
    | none => none
    | some rowData =>
      match rowData[keyIndex]? with
      | some char => if char != "" then some (layerName, char) else none
      | none => none

/-- The key built for one physical position by `createKeyboardRow`. -/
def desktopKeyAt (layersData : List (String × List (List String)))
    (rowIndex keyIndex : Nat) (keyId : String) : Key :=
  { id := keyId,
    layers := ("default", desktopDefaultCell layersData rowIndex keyIndex) ::
      desktopExtraLayers layersData rowIndex keyIndex,
    width := some 1 }

/-- `createKeyboardRow(keyPositions, layersData, rowIndex)`: one key per
position; `default` always present (empty when the cell is absent), the
other layers only when the cell is present and non-empty.  The TS callback
is split into the named helpers above. -/
def createKeyboardRow (keyPositions : List String)
    (layersData : List (String × List (List String))) (rowIndex : Nat) : List Key :=
  keyPositions.enum.map fun p => desktopKeyAt layersData rowIndex p.1 p.2

/-- The `layerMap` of `createMobileKey`: mobile layer names to internal
layer names. -/
def mobileLayerPairs : List (String × String) :=
  [("shift", "shift"), ("alt", "alt"), ("alt+shift", "alt+shift"),
    ("symbols-1", "symbols-1"), ("symbols-2", "symbols-2")]

/-- The `specialKeyMap` of `createMobileKey`, plus its generic fallback. -/
def mobileSpecialKeyProps (specialType keyId : String) : Key :=
  if specialType = "shift" then
    { id := "ShiftLeft", layers := [("default", "")], label := some "⇧",
      type := some "modifier" }
  else if specialType = "backspace" then
    { id := "Backspace", layers := [("default", "\x08")], label := some "⌫",
      type := some "modifier" }
  else if specialType = "return" then
    { id := "Enter", layers := [("default", "\n")], label := some "⏎",
      type := some "modifier" }
  else if specialType = "enter" then
    { id := "Enter", layers := [("default", "\n")], label := some "⏎",
      type := some "modifier" }
  else if specialType = "symbols" then
    { id := "MobileSymbols", layers := [("default", "")], label := some "123",
      type := some "modifier" }
  else if specialType = "space" then
    { id := "Space", layers := [("default", " ")], label := some "",
      type := some "space" }
  else
    { id := keyId, layers := [("default", "")], label := some specialType,
      type := some "modifier" }

/-- `createMobileKey(parsedKey, rowIndex, keyIndex, allLayers)`. -/
def createMobileKey (parsedKey : ParsedMobileKey) (rowIndex keyIndex : Nat)
    (allLayers : List (String × List (List ParsedMobileKey))) : Key :=
  let keyId := "mobile-r" ++ toString rowIndex ++ "-k" ++ toString keyIndex
  let extra := mobileLayerPairs.filterMap fun pair =>
    match ((allLayers.lookup pair.1).bind (fun g => g[rowIndex]?)).bind
        (fun row => row[keyIndex]?) with
    | some pk => if pk.char != "" then some (pair.2, pk.char) else none
    | none => none
  match parsedKey.specialType with
  | some specialType =>
    let props := mobileSpecialKeyProps specialType keyId
    { props with width := some (jsWidthOr parsedKey.width 1) }
  | none =>
    { id := keyId, layers := ("default", parsedKey.char) :: extra,
      width := some (jsWidthOr parsedKey.width 1) }

/-- The synthetic mobile bottom-row symbols-toggle key (iOS only). -/
def mobileBottomSymbolsKey : Key :=
  { id := "MobileSymbols", layers := [("default", "")], label := some "123",
    type := some "modifier", width := some 1.5 }

/-- The synthetic mobile bottom-row space key. -/
def mobileBottomSpaceKey (platform : String) : Key :=
  { id := "Space", layers := [("default", " ")], label := some "",
    type := some "space", width := some (if platform = "iOS" then 8 else 9.5) }

/-- The synthetic mobile bottom-row enter key. -/
def mobileBottomEnterKey : Key :=
  { id := "Enter", layers := [("default", "\n")], label := some "⏎",
    type := some "modifier", width := some 1.5 }

/-- `transformMobileLayout(kbdgenData, platform, variant, repoCode,
layoutName)`. -/
def transformMobileLayout (d : KbdgenLayout)
    (platform variant repoCode layoutName : String) :
    Except TransformError KeyboardLayout :=
  match extractPlatformData d platform variant with
  | .error e => .error e
  | .ok (layers, transforms) =>
    let parsedLayers := layers.filterMap fun p =>
      if p.2 != "" then some (p.1, parseMobileLayerString p.2) else none
    let deadkeys := transforms
    match parsedLayers.lookup "default" with
    | none => .error .noDefaultMobile
    | some defaultLayer =>
      let mainRows := defaultLayer.enum.map fun rp =>
        KeyRow.mk (rp.2.enum.map fun kp =>
          createMobileKey kp.2 rp.1 kp.1 parsedLayers)
      let bottomRow := KeyRow.mk
        ((if platform = "iOS" then [mobileBottomSymbolsKey] else []) ++
          [mobileBottomSpaceKey platform, mobileBottomEnterKey])
      let displayName := displayNameOr d
        (repoCode ++ " - " ++ layoutName ++ " (" ++ platform ++ " " ++ variant ++ ")")
      .ok
        { id := repoCode ++ "-" ++ layoutName ++ "-" ++ platform ++ "-" ++ variant,
          name := displayName, deadkeys := some deadkeys,
          rows := mainRows ++ [bottomRow], isMobile := some true,
          platform := some platform, variant := some variant }

/-- The desktop branch of `transformKbdgenToLayout` (inline in the TS
source): fixed ISO rows built from the parsed layer grids plus the
special-key catalogue. -/
def transformDesktopLayout (d : KbdgenLayout)
    (platform repoCode layoutName : String) :
    Except TransformError KeyboardLayout :=
  match extractPlatformData d platform "primary" with
  | .error e => .error e
  | .ok (layers, transforms) =>
    let parsedLayers := layers.filterMap fun p =>
      if p.2 != "" then some (p.1, parseLayerString p.2) else none
    let deadkeys := transforms
    let dflt := fun (i : Nat) => (parsedLayers.lookup "default").bind (fun g => g[i]?)
    let rows :=
      (if (dflt 0).isSome then
        [KeyRow.mk (createKeyboardRow isoRow1 parsedLayers 0 ++ [backspaceKey])]
      else []) ++
      (if (dflt 1).isSome then
        [KeyRow.mk ([tabKey] ++ createKeyboardRow isoRow2 parsedLayers 1 ++ [enterKey])]
      else []) ++
      (if (dflt 2).isSome then
        [KeyRow.mk ([capsLockKey] ++ createKeyboardRow isoRow3 parsedLayers 2)]
      else []) ++
      (if (dflt 3).isSome then
        [KeyRow.mk ([shiftLeftKey] ++ createKeyboardRow isoRow4 parsedLayers 3 ++ [shiftRightKey])]
      else []) ++
      [KeyRow.mk [controlLeftKey, metaLeftKey, altLeftKey, spaceKey,
        altRightKey, metaRightKey, controlRightKey]]
    let displayName := displayNameOr d
      (repoCode ++ " - " ++ layoutName ++ " (" ++ platform ++ ")")
    .ok
      { id := repoCode ++ "-" ++ layoutName ++ "-" ++ platform,
        name := displayName, deadkeys := some deadkeys, rows := rows }

/-- `transformKbdgenToLayout(kbdgenData, platform, repoCode, layoutName,
variant = "primary")`: mobile platforms route to the mobile transformer,
everything else to the desktop path. -/
def transformKbdgenToLayout (d : KbdgenLayout)
    (platform repoCode layoutName variant : String) :
    Except TransformError KeyboardLayout :=
  if isMobilePlatform platform then
    transformMobileLayout d platform variant repoCode layoutName
  else
    transformDesktopLayout d platform repoCode layoutName


/-! ## Supporting lemmas -/

theorem exitClickModes_shiftClickMode (s : EngineState) :
    (exitClickModes s).shiftClickMode = false := by
  cases h1 : s.shiftClickMode <;> cases h2 : s.altClickMode <;>
    cases h3 : s.cmdClickMode <;> cases h4 : s.ctrlClickMode <;>
    simp [exitClickModes, h1, h2, h3, h4]

theorem exitClickModes_altClickMode (s : EngineState) :
    (exitClickModes s).altClickMode = false := by
  cases h1 : s.shiftClickMode <;> cases h2 : s.altClickMode <;>
    cases h3 : s.cmdClickMode <;> cases h4 : s.ctrlClickMode <;>
    simp [exitClickModes, h1, h2, h3, h4]

theorem exitClickModes_cmdClickMode (s : EngineState) :
    (exitClickModes s).cmdClickMode = false := by
  cases h1 : s.shiftClickMode <;> cases h2 : s.altClickMode <;>
    cases h3 : s.cmdClickMode <;> cases h4 : s.ctrlClickMode <;>
    simp [exitClickModes, h1, h2, h3, h4]

theorem exitClickModes_ctrlClickMode (s : EngineState) :
    (exitClickModes s).ctrlClickMode = false := by
  cases h1 : s.shiftClickMode <;> cases h2 : s.altClickMode <;>
    cases h3 : s.cmdClickMode <;> cases h4 : s.ctrlClickMode <;>
    simp [exitClickModes, h1, h2, h3, h4]

theorem exitClickModes_pendingDeadkey (s : EngineState) :
    (exitClickModes s).pendingDeadkey = s.pendingDeadkey := by
  cases h1 : s.shiftClickMode <;> cases h2 : s.altClickMode <;>
    cases h3 : s.cmdClickMode <;> cases h4 : s.ctrlClickMode <;>
    simp [exitClickModes, h1, h2, h3, h4]

theorem exitClickModes_isSymbols2Active (s : EngineState) :
    (exitClickModes s).isSymbols2Active = s.isSymbols2Active := by
  cases h1 : s.shiftClickMode <;> cases h2 : s.altClickMode <;>
    cases h3 : s.cmdClickMode <;> cases h4 : s.ctrlClickMode <;>
    simp [exitClickModes, h1, h2, h3, h4]

/-! ## Claim C2 -/

/-- The spec precedence list, as an explicit ordered rule table. -/
def layerRules : List ((ModifierState → Bool) × String) :=
  [(fun m => m.cmd && m.alt && m.shift, "cmd+alt+shift"),
   (fun m => m.cmd && m.alt, "cmd+alt"),
   (fun m => m.cmd && m.shift, "cmd+shift"),
   (fun m => m.cmd, "cmd"),
   (fun m => m.alt && m.shift, "alt+shift"),
   (fun m => m.alt && m.caps, "alt+caps"),
   (fun m => m.alt, "alt"),
   (fun m => m.ctrl && m.shift, "ctrl+shift"),
   (fun m => m.ctrl, "ctrl"),
   (fun m => m.caps && m.shift, "caps+shift"),
   (fun m => m.caps, "caps"),
   (fun m => m.shift, "shift"),
   (fun _ => true, "default")]

/-- First-match evaluation of an ordered rule table. -/
def firstMatchLayer : List ((ModifierState → Bool) × String) → ModifierState → String
  | [], _ => ""
  | rule :: rest, m => if rule.1 m then rule.2 else firstMatchLayer rest m

/-- C2: for every `ModifierState`, `getActiveLayer` equals first-match
evaluation of the spec precedence list cmd+alt+shift, cmd+alt, cmd+shift,
cmd, alt+shift, alt+caps, alt, ctrl+shift, ctrl, caps+shift, caps, shift,
default; in particular cmd+alt+shift set (any caps/ctrl) resolves to
"cmd+alt+shift", which is neither "cmd+alt" nor "cmd+shift". -/
theorem getActiveLayer_precedence_C2 :
    (∀ m : ModifierState, getActiveLayer m = firstMatchLayer layerRules m) ∧
    (∀ caps ctrl : Bool,
      getActiveLayer { shift := true, caps := caps, alt := true, cmd := true, ctrl := ctrl } =
        "cmd+alt+shift" ∧
      ("cmd+alt+shift" : String) ≠ "cmd+alt" ∧
      ("cmd+alt+shift" : String) ≠ "cmd+shift") := by
  constructor
  · intro m
    obtain ⟨s, c, a, d, t⟩ := m
    cases s <;> cases c <;> cases a <;> cases d <;> cases t <;> rfl
  · intro caps ctrl
    cases caps <;> cases ctrl <;> exact ⟨rfl, by decide, by decide⟩

/-! ## Claim C3 -/

/-- All 32 combinations of the five desktop modifier flags. -/
def allModifierStates : List ModifierState :=
  [false, true].flatMap fun s =>
    [false, true].flatMap fun c =>
      [false, true].flatMap fun a =>
        [false, true].flatMap fun d =>
          [false, true].map fun t =>
            { shift := s, caps := c, alt := a, cmd := d, ctrl := t }

/-- The thirteen layer names `getActiveLayer` can return. -/
def canonicalLayerNames : List String :=
  ["cmd+alt+shift", "cmd+alt", "cmd+shift", "cmd", "alt+shift", "alt+caps",
   "alt", "ctrl+shift", "ctrl", "caps+shift", "caps", "shift", "default"]

/-- C3 counterexample: over all 32 modifier states the resolver attains
exactly 13 distinct layer names, not fourteen as the claim counts. -/
theorem getActiveLayer_thirteen_not_fourteen_C3_cex :
    (allModifierStates.map getActiveLayer).dedup.length = 13 ∧
    allModifierStates.length = 32 ∧ (13 : Nat) ≠ 14 := by
  refine ⟨by decide, by decide, by decide⟩

/-- C3 amended: for all `ModifierState` combinations `getActiveLayer`
returns exactly one of the THIRTEEN fixed layer names, and any two states
agreeing on the five desktop flags resolve to the same layer name. -/
theorem getActiveLayer_range_C3 :
    (∀ m : ModifierState, getActiveLayer m ∈ canonicalLayerNames) ∧
    (∀ m n : ModifierState, m.shift = n.shift → m.caps = n.caps →
      m.alt = n.alt → m.cmd = n.cmd → m.ctrl = n.ctrl →
      getActiveLayer m = getActiveLayer n) := by
  constructor
  · intro m
    obtain ⟨s, c, a, d, t⟩ := m
    cases s <;> cases c <;> cases a <;> cases d <;> cases t <;> decide
  · intro m n h1 h2 h3 h4 h5
    obtain ⟨s, c, a, d, t⟩ := m
    obtain ⟨s2, c2, a2, d2, t2⟩ := n
    simp only at h1 h2 h3 h4 h5
    subst h1
    subst h2
    subst h3
    subst h4
    subst h5
    rfl

/-- C3 witness: the amended theorem applied at two concrete states agreeing
on all five flags. -/
theorem getActiveLayer_range_C3_witness :
    getActiveLayer createModifierState ∈ canonicalLayerNames ∧
    getActiveLayer createModifierState =
      getActiveLayer { shift := false, caps := false, alt := false, cmd := false, ctrl := false } :=
  ⟨getActiveLayer_range_C3.1 createModifierState,
   getActiveLayer_range_C3.2 createModifierState
     { shift := false, caps := false, alt := false, cmd := false, ctrl := false }
     rfl rfl rfl rfl rfl⟩


/-! ## Claim C1 -/

/-- Demo key producing the acute deadkey. -/
def acuteKeyDemo : Key := { id := "Quote", layers := [("default", "´")] }

def aKeyDemo : Key := { id := "KeyA", layers := [("default", "a")] }

def zKeyDemo : Key := { id := "KeyZ", layers := [("default", "z")] }

/-- Demo layout whose deadkey table is exactly the one in the claim. -/
def deadkeyDemoLayout : KeyboardLayout :=
  { id := "demo", name := "demo", rows := [KeyRow.mk [acuteKeyDemo, aKeyDemo, zKeyDemo]],
    deadkeys := some [("´", [("a", "á")])] }

/-- C1: a printable key activation while a deadkey is pending emits the
composed character from the table when the entry exists, otherwise the
literal concatenation, and clears the pending deadkey either way; in
particular with table containing acute+a, acute then a commits "á" and
acute then z commits "´z". -/
theorem deadkey_pending_commit_C1 :
    (∀ (layout : Option KeyboardLayout) (key : Key) (s : EngineState) (dk : String),
      s.pendingDeadkey = some dk →
      isModifierKey key.id = false →
      key.id ≠ BACKSPACE_KEY → key.id ≠ ENTER_KEY → key.id ≠ TAB_KEY →
      getKeyOutput key (activeLayer s) ≠ "" →
      handleKeyClick layout key s =
        (exitClickModes { s with pendingDeadkey := none },
         [OutputEvent.text
           ((getDeadkeyCombination layout dk (getKeyOutput key (activeLayer s))).getD
             (dk ++ getKeyOutput key (activeLayer s)))])) ∧
    (runClicks (some deadkeyDemoLayout) [acuteKeyDemo, aKeyDemo] initialEngineState).2 =
      [OutputEvent.text "á"] ∧
    (runClicks (some deadkeyDemoLayout) [acuteKeyDemo, zKeyDemo] initialEngineState).2 =
      [OutputEvent.text "´z"] := by
  refine ⟨?_, by decide, by decide⟩
  intro layout key s dk hpending hmod hb he ht hout
  obtain ⟨h1, h2, h3, h4, h5, h6⟩ :
      isShiftKey key.id = false ∧ isCapsLockKey key.id = false ∧
      isAltKey key.id = false ∧ isCmdKey key.id = false ∧
      isCtrlKey key.id = false ∧ isSymbolsKey key.id = false := by
    simpa [isModifierKey, Bool.or_eq_false_iff, and_assoc] using hmod
  have hb2 : (key.id == BACKSPACE_KEY) = false := by simp [hb]
  have he2 : (key.id == ENTER_KEY) = false := by simp [he]
  have ht2 : (key.id == TAB_KEY) = false := by simp [ht]
  have hout2 : (getKeyOutput key (activeLayer s) == "") = false := by simp [hout]
  simp only [handleKeyClick, h1, h2, h3, h4, h5, h6, hb2, he2, ht2, hout2,
    Bool.false_eq_true, if_false, hpending]
  cases hcomb : getDeadkeyCombination layout dk (getKeyOutput key (activeLayer s)) <;>
    simp [hcomb]

/-- C1 witness: the general part applied at the demo layout with the acute
deadkey pending and the key producing "a". -/
theorem deadkey_pending_commit_C1_witness :
    handleKeyClick (some deadkeyDemoLayout) aKeyDemo
        { initialEngineState with pendingDeadkey := some "´" } =
      (exitClickModes
        { { initialEngineState with pendingDeadkey := some "´" } with pendingDeadkey := none },
       [OutputEvent.text
         ((getDeadkeyCombination (some deadkeyDemoLayout) "´"
            (getKeyOutput aKeyDemo
              (activeLayer { initialEngineState with pendingDeadkey := some "´" }))).getD
           ("´" ++ getKeyOutput aKeyDemo
              (activeLayer { initialEngineState with pendingDeadkey := some "´" })))]) :=
  deadkey_pending_commit_C1.1 (some deadkeyDemoLayout) aKeyDemo
    { initialEngineState with pendingDeadkey := some "´" } "´"
    rfl (by decide) (by decide) (by decide) (by decide) (by decide)

/-! ## Claim C4 -/

/-- Modelled from the spec sentence for the output lookup: return
`key.layers[layerName]` only if that entry is present AND non-empty;
otherwise, only for "symbols-2", fall back to a present non-empty
"symbols-1"; otherwise fall back to the default layer. -/
def getKeyOutputSpec (key : Key) (layer : String) : String :=
  if jsTruthy (key.layers.lookup layer) then
    (key.layers.lookup layer).getD ""
  else if layer == "symbols-2" && jsTruthy (key.layers.lookup "symbols-1") then
    (key.layers.lookup "symbols-1").getD ""
  else
    jsOr (key.layers.lookup "default") ""

/-- Key whose shift entry is present but empty. -/
def emptyShiftKey : Key := { id := "X", layers := [("default", "x"), ("shift", "")] }

/-- C4 counterexample: for a key whose "shift" entry is present but empty,
the code returns the empty entry itself, while the claim (present AND
non-empty, else fall back) prescribes the default "x". -/
theorem getKeyOutput_empty_entry_C4_cex :
    getKeyOutput emptyShiftKey "shift" = "" ∧
    getKeyOutputSpec emptyShiftKey "shift" = "x" ∧
    ("" : String) ≠ "x" :=
  ⟨rfl, rfl, by decide⟩

/-- C4 amended: the code returns `key.layers[layerName]` whenever the entry
is PRESENT (even when it is the empty string); only when the entry is absent
does it fall back — for "symbols-2" to a present non-empty "symbols-1",
otherwise to `key.layers.default || ""`; no other cross-layer fallback
occurs. -/
theorem getKeyOutput_lookup_C4 :
    (∀ (key : Key) (layer v : String),
      key.layers.lookup layer = some v → getKeyOutput key layer = v) ∧
    (∀ (key : Key) (s : String),
      key.layers.lookup "symbols-2" = none →
      key.layers.lookup "symbols-1" = some s → s ≠ "" →
      getKeyOutput key "symbols-2" = s) ∧
    (∀ (key : Key) (layer : String),
      key.layers.lookup layer = none →
      (layer = "symbols-2" → jsTruthy (key.layers.lookup "symbols-1") = false) →
      getKeyOutput key layer = jsOr (key.layers.lookup "default") "") := by
  refine ⟨?_, ?_, ?_⟩
  · intro key layer v h
    simp [getKeyOutput, h]
  · intro key s h hs hne
    simp [getKeyOutput, h, hs, jsTruthy, hne]
  · intro key layer h hsym
    by_cases hl : layer = "symbols-2"
    · subst hl
      simp [getKeyOutput, h, hsym rfl]
    · have hl2 : (layer == "symbols-2") = false := by simp [hl]
      simp [getKeyOutput, h, hl2]

/-- C4 witness: the amended theorem exercised on concrete keys for all
three branches. -/
theorem getKeyOutput_lookup_C4_witness :
    getKeyOutput emptyShiftKey "default" = "x" ∧
    getKeyOutput { id := "S", layers := [("default", "d"), ("symbols-1", "#")] } "symbols-2" = "#" ∧
    getKeyOutput emptyShiftKey "alt" = jsOr (emptyShiftKey.layers.lookup "default") "" :=
  ⟨getKeyOutput_lookup_C4.1 emptyShiftKey "default" "x" rfl,
   getKeyOutput_lookup_C4.2.1 { id := "S", layers := [("default", "d"), ("symbols-1", "#")] } "#"
     rfl rfl (by decide),
   getKeyOutput_lookup_C4.2.2 emptyShiftKey "alt" rfl
     (fun h => absurd h (by decide))⟩

/-! ## Claim C5 -/

def shiftKeyDemo : Key := { id := "ShiftLeft", layers := [("default", "")] }

def qKeyDemo : Key := { id := "KeyQ", layers := [("default", "q"), ("shift", "Q")] }

def qDemoLayout : KeyboardLayout :=
  { id := "q", name := "Q demo", rows := [KeyRow.mk [shiftKeyDemo, qKeyDemo]] }

/-- C5 counterexample: a first Shift click sets the click latch; a second
(repeat) click of the same modifier clears it — contradicting "never by a
repeat press of the same modifier". -/
theorem shift_repeat_press_clears_latch_C5_cex :
    ((handleKeyClick (some qDemoLayout) shiftKeyDemo initialEngineState).1).shiftClickMode = true ∧
    ((handleKeyClick (some qDemoLayout) shiftKeyDemo
        ((handleKeyClick (some qDemoLayout) shiftKeyDemo initialEngineState).1)).1).shiftClickMode =
      false :=
  ⟨rfl, rfl⟩

/-- C5 amended: a virtual click on a modifier key (shift/alt/cmd/ctrl,
outside mobile symbols mode for shift) toggles its flag and latches it
exactly when toggled on; any activation that emits output clears every
click latch (one-shot); a repeat press of the same modifier also clears the
latch by toggling the modifier off; after a Shift click one printable key
commits shifted and a second printable key afterwards commits unshifted. -/
theorem click_latch_one_shot_C5 :
    (∀ (layout : Option KeyboardLayout) (key : Key) (s : EngineState),
      isShiftKey key.id = true → s.isSymbolsActive = false →
      (handleKeyClick layout key s).1.isShiftActive = !s.isShiftActive ∧
      (handleKeyClick layout key s).1.shiftClickMode = !s.isShiftActive) ∧
    (∀ (layout : Option KeyboardLayout) (key : Key) (s : EngineState),
      isAltKey key.id = true →
      (handleKeyClick layout key s).1.isAltActive = !s.isAltActive ∧
      (handleKeyClick layout key s).1.altClickMode = !s.isAltActive) ∧
    (∀ (layout : Option KeyboardLayout) (key : Key) (s : EngineState),
      isCmdKey key.id = true →
      (handleKeyClick layout key s).1.isCmdActive = !s.isCmdActive ∧
      (handleKeyClick layout key s).1.cmdClickMode = !s.isCmdActive) ∧
    (∀ (layout : Option KeyboardLayout) (key : Key) (s : EngineState),
      isCtrlKey key.id = true →
      (handleKeyClick layout key s).1.isCtrlActive = !s.isCtrlActive ∧
      (handleKeyClick layout key s).1.ctrlClickMode = !s.isCtrlActive) ∧
    (∀ (layout : Option KeyboardLayout) (key : Key) (s : EngineState),
      (handleKeyClick layout key s).2 ≠ [] →
      (handleKeyClick layout key s).1.shiftClickMode = false ∧
      (handleKeyClick layout key s).1.altClickMode = false ∧
      (handleKeyClick layout key s).1.cmdClickMode = false ∧
      (handleKeyClick layout key s).1.ctrlClickMode = false) ∧
    (runClicks (some qDemoLayout) [shiftKeyDemo, qKeyDemo, qKeyDemo] initialEngineState).2 =
      [OutputEvent.text "Q", OutputEvent.text "q"] := by
  refine ⟨?_, ?_, ?_, ?_, ?_, by decide⟩
  · intro layout key s hk hsym
    simp [handleKeyClick, hk, hsym]
  · intro layout key s hk
    have hda : "AltLeft" = key.id ∨ "AltRight" = key.id := by
      simpa [isAltKey, ALT_KEYS] using hk
    have h1 : isShiftKey key.id = false := by
      rcases hda with h | h <;> rw [← h] <;> decide
    have h2 : isCapsLockKey key.id = false := by
      rcases hda with h | h <;> rw [← h] <;> decide
    simp [handleKeyClick, h1, h2, hk]
  · intro layout key s hk
    have hda : "MetaLeft" = key.id ∨ "MetaRight" = key.id := by
      simpa [isCmdKey, CMD_KEYS] using hk
    have h1 : isShiftKey key.id = false := by
      rcases hda with h | h <;> rw [← h] <;> decide
    have h2 : isCapsLockKey key.id = false := by
      rcases hda with h | h <;> rw [← h] <;> decide
    have h3 : isAltKey key.id = false := by
      rcases hda with h | h <;> rw [← h] <;> decide
    simp [handleKeyClick, h1, h2, h3, hk]
  · intro layout key s hk
    have hda : "ControlLeft" = key.id ∨ "ControlRight" = key.id := by
      simpa [isCtrlKey, CTRL_KEYS] using hk
    have h1 : isShiftKey key.id = false := by
      rcases hda with h | h <;> rw [← h] <;> decide
    have h2 : isCapsLockKey key.id = false := by
      rcases hda with h | h <;> rw [← h] <;> decide
    have h3 : isAltKey key.id = false := by
      rcases hda with h | h <;> rw [← h] <;> decide
    have h4 : isCmdKey key.id = false := by
      rcases hda with h | h <;> rw [← h] <;> decide
    simp [handleKeyClick, h1, h2, h3, h4, hk]
  · intro layout key s
    by_cases c1 : isShiftKey key.id
    · intro hne
      exfalso
      apply hne
      by_cases c0 : s.isSymbolsActive <;> simp [handleKeyClick, c1, c0]
    by_cases c2 : isCapsLockKey key.id
    · intro hne
      exact absurd (by simp [handleKeyClick, c1, c2]) hne
    by_cases c3 : isAltKey key.id
    · intro hne
      exact absurd (by simp [handleKeyClick, c1, c2, c3]) hne
    by_cases c4 : isCmdKey key.id
    · intro hne
      exact absurd (by simp [handleKeyClick, c1, c2, c3, c4]) hne
    by_cases c5 : isCtrlKey key.id
    · intro hne
      exact absurd (by simp [handleKeyClick, c1, c2, c3, c4, c5]) hne
    by_cases c6 : isSymbolsKey key.id
    · intro hne
      exact absurd (by simp [handleKeyClick, c1, c2, c3, c4, c5, c6]) hne
    intro hne
    refine ⟨?_, ?_, ?_, ?_⟩ <;>
    · by_cases c7 : key.id == BACKSPACE_KEY
      · cases hp : s.pendingDeadkey <;>
          simp [handleKeyClick, c1, c2, c3, c4, c5, c6, c7, hp,
            exitClickModes_shiftClickMode, exitClickModes_altClickMode,
            exitClickModes_cmdClickMode, exitClickModes_ctrlClickMode]
      by_cases c8 : key.id == ENTER_KEY
      · cases hp : s.pendingDeadkey <;>
          simp [handleKeyClick, c1, c2, c3, c4, c5, c6, c7, c8, hp,
            exitClickModes_shiftClickMode, exitClickModes_altClickMode,
            exitClickModes_cmdClickMode, exitClickModes_ctrlClickMode]
      by_cases c9 : key.id == TAB_KEY
      · cases hp : s.pendingDeadkey <;>
          simp [handleKeyClick, c1, c2, c3, c4, c5, c6, c7, c8, c9, hp,
            exitClickModes_shiftClickMode, exitClickModes_altClickMode,
            exitClickModes_cmdClickMode, exitClickModes_ctrlClickMode]
      by_cases c10 : getKeyOutput key (activeLayer s) == ""
      · exact absurd (by simp [handleKeyClick, c1, c2, c3, c4, c5, c6, c7, c8, c9, c10]) hne
      cases hp : s.pendingDeadkey with
      | none =>
        by_cases c11 : isDeadkey layout (getKeyOutput key (activeLayer s)) <;>
          simp [handleKeyClick, c1, c2, c3, c4, c5, c6, c7, c8, c9, c10, c11, hp,
            exitClickModes_shiftClickMode, exitClickModes_altClickMode,
            exitClickModes_cmdClickMode, exitClickModes_ctrlClickMode]
      | some dk =>
        cases hcomb : getDeadkeyCombination layout dk (getKeyOutput key (activeLayer s)) <;>
          simp [handleKeyClick, c1, c2, c3, c4, c5, c6, c7, c8, c9, c10, hp, hcomb,
            exitClickModes_shiftClickMode, exitClickModes_altClickMode,
            exitClickModes_cmdClickMode, exitClickModes_ctrlClickMode]

/-- C5 witness: the amended theorem applied at the demo layout. -/
theorem click_latch_one_shot_C5_witness :
    ((handleKeyClick (some qDemoLayout) shiftKeyDemo initialEngineState).1.isShiftActive =
        !initialEngineState.isShiftActive ∧
      (handleKeyClick (some qDemoLayout) shiftKeyDemo initialEngineState).1.shiftClickMode =
        !initialEngineState.isShiftActive) ∧
    ((handleKeyClick (some qDemoLayout) qKeyDemo initialEngineState).1.shiftClickMode = false ∧
      (handleKeyClick (some qDemoLayout) qKeyDemo initialEngineState).1.altClickMode = false ∧
      (handleKeyClick (some qDemoLayout) qKeyDemo initialEngineState).1.cmdClickMode = false ∧
      (handleKeyClick (some qDemoLayout) qKeyDemo initialEngineState).1.ctrlClickMode = false) :=
  ⟨click_latch_one_shot_C5.1 (some qDemoLayout) shiftKeyDemo initialEngineState rfl rfl,
   click_latch_one_shot_C5.2.2.2.2.1 (some qDemoLayout) qKeyDemo initialEngineState
     (by decide)⟩


/-! ## Claim C8 -/

/-- C8 counterexample: with no active layout, a virtual click on a printable
key still emits text — the engine is a no-op only for physical events. -/
theorem no_layout_virtual_click_emits_C8_cex :
    (handleKeyClick none qKeyDemo initialEngineState).2 = [OutputEvent.text "q"] ∧
    (OutputEvent.text "q" :: ([] : List OutputEvent)) ≠ [] :=
  ⟨rfl, by decide⟩

/-- C8 amended: the engine is total (every handler is a function) and with
no active layout every PHYSICAL key activation is a no-op — no events, no
state change; virtual clicks are still processed, but against the empty
deadkey table, so no deadkey can become pending. -/
theorem no_layout_noop_C8 :
    (∀ (code : String) (s : EngineState), handleKeyDown none code s = (s, [])) ∧
    (∀ (code : String) (s : EngineState), handleKeyUp none code s = (s, [])) ∧
    (∀ (key : Key) (s : EngineState), s.pendingDeadkey = none →
      (handleKeyClick none key s).1.pendingDeadkey = none) := by
  refine ⟨fun code s => rfl, fun code s => rfl, ?_⟩
  intro key s hp
  by_cases c1 : isShiftKey key.id
  · by_cases c0 : s.isSymbolsActive <;> simp [handleKeyClick, c1, c0, hp]
  by_cases c2 : isCapsLockKey key.id
  · simp [handleKeyClick, c1, c2, hp]
  by_cases c3 : isAltKey key.id
  · simp [handleKeyClick, c1, c2, c3, hp]
  by_cases c4 : isCmdKey key.id
  · simp [handleKeyClick, c1, c2, c3, c4, hp]
  by_cases c5 : isCtrlKey key.id
  · simp [handleKeyClick, c1, c2, c3, c4, c5, hp]
  by_cases c6 : isSymbolsKey key.id
  · by_cases c0 : s.isSymbolsActive <;>
      simp [handleKeyClick, c1, c2, c3, c4, c5, c6, c0, hp]
  by_cases c7 : key.id == BACKSPACE_KEY
  · simp [handleKeyClick, c1, c2, c3, c4, c5, c6, c7, hp,
      exitClickModes_pendingDeadkey]
  by_cases c8 : key.id == ENTER_KEY
  · simp [handleKeyClick, c1, c2, c3, c4, c5, c6, c7, c8, hp,
      exitClickModes_pendingDeadkey]
  by_cases c9 : key.id == TAB_KEY
  · simp [handleKeyClick, c1, c2, c3, c4, c5, c6, c7, c8, c9, hp,
      exitClickModes_pendingDeadkey]
  by_cases c10 : getKeyOutput key (activeLayer s) == ""
  · simp [handleKeyClick, c1, c2, c3, c4, c5, c6, c7, c8, c9, c10, hp]
  · simp [handleKeyClick, c1, c2, c3, c4, c5, c6, c7, c8, c9, c10, hp,
      isDeadkey, deadkeyCombinations, exitClickModes_pendingDeadkey]

/-- C8 witness: the amended theorem applied at a concrete key and state. -/
theorem no_layout_noop_C8_witness :
    (handleKeyClick none qKeyDemo initialEngineState).1.pendingDeadkey = none :=
  no_layout_noop_C8.2.2 qKeyDemo initialEngineState rfl

/-! ## Claim C9 -/

/-- Helper: a virtual click can only turn `isSymbols2Active` on when it is a
Shift-key click in mobile symbols mode. -/
theorem handleKeyClick_symbols2_inv (layout : Option KeyboardLayout) (key : Key)
    (s : EngineState) (h0 : s.isSymbols2Active = false)
    (h1 : (handleKeyClick layout key s).1.isSymbols2Active = true) :
    isShiftKey key.id = true ∧ s.isSymbolsActive = true := by
  by_cases c1 : isShiftKey key.id
  · by_cases c0 : s.isSymbolsActive
    · exact ⟨c1, c0⟩
    · exfalso
      simp [handleKeyClick, c1, c0, h0] at h1
  exfalso
  by_cases c2 : isCapsLockKey key.id
  · simp [handleKeyClick, c1, c2, h0] at h1
  by_cases c3 : isAltKey key.id
  · simp [handleKeyClick, c1, c2, c3, h0] at h1
  by_cases c4 : isCmdKey key.id
  · simp [handleKeyClick, c1, c2, c3, c4, h0] at h1
  by_cases c5 : isCtrlKey key.id
  · simp [handleKeyClick, c1, c2, c3, c4, c5, h0] at h1
  by_cases c6 : isSymbolsKey key.id
  · by_cases c0 : s.isSymbolsActive <;>
      simp [handleKeyClick, c1, c2, c3, c4, c5, c6, c0, h0] at h1
  by_cases c7 : key.id == BACKSPACE_KEY
  · cases hpd : s.pendingDeadkey <;>
      simp [handleKeyClick, c1, c2, c3, c4, c5, c6, c7, hpd, h0,
        exitClickModes_isSymbols2Active] at h1
  by_cases c8 : key.id == ENTER_KEY
  · cases hpd : s.pendingDeadkey <;>
      simp [handleKeyClick, c1, c2, c3, c4, c5, c6, c7, c8, hpd, h0,
        exitClickModes_isSymbols2Active] at h1
  by_cases c9 : key.id == TAB_KEY
  · cases hpd : s.pendingDeadkey <;>
      simp [handleKeyClick, c1, c2, c3, c4, c5, c6, c7, c8, c9, hpd, h0,
        exitClickModes_isSymbols2Active] at h1
  by_cases c10 : getKeyOutput key (activeLayer s) == ""
  · simp [handleKeyClick, c1, c2, c3, c4, c5, c6, c7, c8, c9, c10, h0] at h1
  cases hpd : s.pendingDeadkey with
  | none =>
    by_cases c11 : isDeadkey layout (getKeyOutput key (activeLayer s)) <;>
      simp [handleKeyClick, c1, c2, c3, c4, c5, c6, c7, c8, c9, c10, c11, hpd, h0,
        exitClickModes_isSymbols2Active] at h1
  | some dk =>
    cases hcomb : getDeadkeyCombination layout dk (getKeyOutput key (activeLayer s)) <;>
      simp [handleKeyClick, c1, c2, c3, c4, c5, c6, c7, c8, c9, c10, hpd, hcomb, h0,
        exitClickModes_isSymbols2Active] at h1

/-- C9: a virtual click on a Shift key while mobile symbols mode is active
toggles only `isSymbols2Active` (shift flag, shift latch and everything else
unchanged) and emits nothing; and this is the only way `isSymbols2Active`
turns on — no virtual click outside that case, no physical key event and no
reset ever sets it. -/
theorem symbols2_shift_toggle_C9 :
    (∀ (layout : Option KeyboardLayout) (key : Key) (s : EngineState),
      isShiftKey key.id = true → s.isSymbolsActive = true →
      handleKeyClick layout key s = ({ s with isSymbols2Active := !s.isSymbols2Active }, [])) ∧
    (∀ (layout : Option KeyboardLayout) (key : Key) (s : EngineState),
      s.isSymbols2Active = false →
      (handleKeyClick layout key s).1.isSymbols2Active = true →
      isShiftKey key.id = true ∧ s.isSymbolsActive = true) ∧
    (∀ (layout : Option KeyboardLayout) (code : String) (s : EngineState),
      s.isSymbols2Active = false →
      (handleKeyDown layout code s).1.isSymbols2Active = false) ∧
    (∀ (layout : Option KeyboardLayout) (code : String) (s : EngineState),
      s.isSymbols2Active = false →
      (handleKeyUp layout code s).1.isSymbols2Active = false) ∧
    (∀ s : EngineState, (clearEngineState s).1.isSymbols2Active = false) := by
  refine ⟨?_, handleKeyClick_symbols2_inv, ?_, ?_, fun s => rfl⟩
  · intro layout key s hk hsym
    simp [handleKeyClick, hk, hsym]
  · intro layout code s h0
    cases layout with
    | none => simpa [handleKeyDown] using h0
    | some l =>
      cases hk : findKeyByCode l code with
      | none => simpa [handleKeyDown, hk] using h0
      | some key =>
        by_cases c1 : isShiftKey key.id
        · simpa [handleKeyDown, hk, c1] using h0
        by_cases c2 : isCapsLockKey key.id
        · simpa [handleKeyDown, hk, c1, c2] using h0
        by_cases c3 : isAltKey key.id
        · simpa [handleKeyDown, hk, c1, c2, c3] using h0
        by_cases c4 : isCmdKey key.id
        · simpa [handleKeyDown, hk, c1, c2, c3, c4] using h0
        by_cases c5 : isCtrlKey key.id
        · simpa [handleKeyDown, hk, c1, c2, c3, c4, c5] using h0
        have hred : (handleKeyDown (some l) code s).1 =
            (handleKeyClick (some l) key { s with pressedKeyId := some key.id }).1 := by
          simp [handleKeyDown, hk, c1, c2, c3, c4, c5]
        rw [hred]
        cases hres : (handleKeyClick (some l) key
            { s with pressedKeyId := some key.id }).1.isSymbols2Active with
        | false => rfl
        | true =>
          exfalso
          have hinv := handleKeyClick_symbols2_inv (some l) key
            { s with pressedKeyId := some key.id } (by simpa using h0) hres
          exact c1 hinv.1
  · intro layout code s h0
    cases layout with
    | none => simpa [handleKeyUp] using h0
    | some l =>
      cases hk : findKeyByCode l code with
      | none => simpa [handleKeyUp, hk] using h0
      | some key =>
        simp only [handleKeyUp, hk]
        split <;> split <;> split <;> split <;> simpa using h0

/-- C9 witness: the first conjunct applied in symbols mode at a concrete
state. -/
theorem symbols2_shift_toggle_C9_witness :
    handleKeyClick none shiftKeyDemo { initialEngineState with isSymbolsActive := true } =
      ({ { initialEngineState with isSymbolsActive := true } with
          isSymbols2Active := !{ initialEngineState with isSymbolsActive := true }.isSymbols2Active },
        []) :=
  symbols2_shift_toggle_C9.1 none shiftKeyDemo
    { initialEngineState with isSymbolsActive := true } rfl rfl


/-! ## Claim C6 -/

/-- The variant that `extractPlatformData` actually records in its errors:
the requested one for mobile platforms, the implicit default "primary" for
desktop platforms. -/
def effectiveVariant (platform variant : String) : String :=
  if isMobilePlatform platform then variant else "primary"

/-- Whether the platform data has a usable (truthy) default layer for the
requested platform/variant. -/
def hasDefaultLayer (pd : KbdgenPlatformData) (platform variant : String) : Bool :=
  match resolvedLayers pd platform (effectiveVariant platform variant) with
  | some layers => jsOr (layers.lookup "default") "" != ""
  | none => false

/-- Association-list lookup commutes with the parse-nonempty `filterMap`
used to build `parsedLayers`, provided the found value is non-empty. -/
theorem lookup_filterMap_parse {α : Type} (f : String → α) :
    ∀ (l : List (String × String)) (k v : String), l.lookup k = some v → v ≠ "" →
      (l.filterMap fun p => if p.2 != "" then some (p.1, f p.2) else none).lookup k =
        some (f v) := by
  intro l
  induction l with
  | nil => intro k v h hne; simp [List.lookup] at h
  | cons hd tl ih =>
    intro k v h hne
    obtain ⟨k1, v1⟩ := hd
    by_cases hk : k == k1
    · have hv : v1 = v := by simpa [List.lookup, hk] using h
      subst hv
      have hv1 : (v1 != "") = true := by simpa using hne
      simp [List.filterMap, hv1, List.lookup, hk]
    · have h2 : List.lookup k tl = some v := by
        simpa [List.lookup, hk] using h
      have htl := ih k v h2 hne
      by_cases hv1 : (v1 != "") = true
      · simpa [List.filterMap, hv1, List.lookup, hk] using htl
      · simpa [List.filterMap, hv1] using htl

/-- A truthy default entry yields the entry itself. -/
theorem jsOr_default_some (o : Option String) (h : jsOr o "" ≠ "") :
    ∃ v, o = some v ∧ v ≠ "" := by
  cases o with
  | none => simp [jsOr] at h
  | some s =>
    refine ⟨s, rfl, ?_⟩
    intro hs
    subst hs
    simp [jsOr] at h

/-- An absent platform makes the transformer fail with the
unsupported-platform error, on both the desktop and the mobile path. -/
theorem transform_unsupported_of_none (d : KbdgenLayout)
    (platform repoCode layoutName variant : String)
    (h : d.platformField platform = none) :
    transformKbdgenToLayout d platform repoCode layoutName variant =
      .error (.unsupportedPlatform platform) := by
  by_cases hm : isMobilePlatform platform = true <;>
    simp [transformKbdgenToLayout, hm, transformMobileLayout,
      transformDesktopLayout, extractPlatformData, h]

/-- A present platform without a truthy default layer makes the transformer
fail with the missing-layer error for the effective variant. -/
theorem transform_missingLayer_of_noDefault (d : KbdgenLayout)
    (platform repoCode layoutName variant : String) (pd : KbdgenPlatformData)
    (hpd : d.platformField platform = some pd)
    (hfd : hasDefaultLayer pd platform variant = false) :
    transformKbdgenToLayout d platform repoCode layoutName variant =
      .error (.missingLayer platform (effectiveVariant platform variant)) := by
  by_cases hm : isMobilePlatform platform = true
  · have hev : effectiveVariant platform variant = variant := by
      simp [effectiveVariant, hm]
    unfold hasDefaultLayer at hfd
    rw [hev] at hfd
    rw [hev]
    cases hr : resolvedLayers pd platform variant with
    | none =>
      simp [transformKbdgenToLayout, hm, transformMobileLayout,
        extractPlatformData, hpd, hr]
    | some layers =>
      rw [hr] at hfd
      have hempty : jsOr (layers.lookup "default") "" = "" := by
        simpa using hfd
      simp [transformKbdgenToLayout, hm, transformMobileLayout,
        extractPlatformData, hpd, hr, hempty]
  · have hm2 : isMobilePlatform platform = false := by
      simpa using hm
    have hev : effectiveVariant platform variant = "primary" := by
      simp [effectiveVariant, hm2]
    unfold hasDefaultLayer at hfd
    rw [hev] at hfd
    rw [hev]
    cases hr : resolvedLayers pd platform "primary" with
    | none =>
      simp [transformKbdgenToLayout, hm2, transformDesktopLayout,
        extractPlatformData, hpd, hr]
    | some layers =>
      rw [hr] at hfd
      have hempty : jsOr (layers.lookup "default") "" = "" := by
        simpa using hfd
      simp [transformKbdgenToLayout, hm2, transformDesktopLayout,
        extractPlatformData, hpd, hr, hempty]

/-- A present platform with a truthy default layer makes the transformer
succeed: the later default-layer check of the mobile path cannot fire. -/
theorem transform_ok_of_hasDefault (d : KbdgenLayout)
    (platform repoCode layoutName variant : String) (pd : KbdgenPlatformData)
    (hpd : d.platformField platform = some pd)
    (hfd : hasDefaultLayer pd platform variant = true) :
    (transformKbdgenToLayout d platform repoCode layoutName variant).toOption.isSome = true := by
  by_cases hm : isMobilePlatform platform = true
  · have hev : effectiveVariant platform variant = variant := by
      simp [effectiveVariant, hm]
    unfold hasDefaultLayer at hfd
    rw [hev] at hfd
    cases hr : resolvedLayers pd platform variant with
    | none => rw [hr] at hfd; simp at hfd
    | some layers =>
      rw [hr] at hfd
      have hne : jsOr (layers.lookup "default") "" ≠ "" := by
        simpa using hfd
      obtain ⟨dv, hdv, hdvne⟩ := jsOr_default_some _ hne
      have hpl := lookup_filterMap_parse parseMobileLayerString layers "default" dv hdv hdvne
      simp only [bne_iff_ne, ne_eq, ite_not] at hpl
      simp [transformKbdgenToLayout, hm, transformMobileLayout,
        extractPlatformData, hpd, hr, hne, hpl, Except.toOption]
  · have hm2 : isMobilePlatform platform = false := by
      simpa using hm
    unfold hasDefaultLayer at hfd
    rw [show effectiveVariant platform variant = "primary" from by
      simp [effectiveVariant, hm2]] at hfd
    cases hr : resolvedLayers pd platform "primary" with
    | none => rw [hr] at hfd; simp at hfd
    | some layers =>
      rw [hr] at hfd
      have hne : jsOr (layers.lookup "default") "" ≠ "" := by
        simpa using hfd
      simp [transformKbdgenToLayout, hm2, transformDesktopLayout,
        extractPlatformData, hpd, hr, hne, Except.toOption]

/-- C6: for a recognised platform name, the transformer fails with the
unsupported-platform error exactly when the platform is absent from the
source definition, and with the missing-layer error for the effective
platform/variant exactly when the platform is present but has no usable
default layer; failures are `Except.error`, so no partial layout is ever
produced. -/
theorem transform_failure_C6 :
    ∀ (d : KbdgenLayout) (platform repoCode layoutName variant : String),
      platform ∈ platformKeys →
      ((transformKbdgenToLayout d platform repoCode layoutName variant =
          .error (.unsupportedPlatform platform)) ↔ d.platformField platform = none) ∧
      ((transformKbdgenToLayout d platform repoCode layoutName variant =
          .error (.missingLayer platform (effectiveVariant platform variant))) ↔
        ∃ pd, d.platformField platform = some pd ∧
          hasDefaultLayer pd platform variant = false) := by
  intro d platform repoCode layoutName variant hplat
  constructor
  · constructor
    · intro herr
      cases hpf : d.platformField platform with
      | none => rfl
      | some pd =>
        exfalso
        cases hfd : hasDefaultLayer pd platform variant with
        | true =>
          have hok := transform_ok_of_hasDefault d platform repoCode layoutName
            variant pd hpf hfd
          rw [herr] at hok
          simp [Except.toOption] at hok
        | false =>
          have hmiss := transform_missingLayer_of_noDefault d platform repoCode layoutName
            variant pd hpf hfd
          rw [herr] at hmiss
          have := Except.error.inj hmiss
          exact TransformError.noConfusion this
    · intro hnone
      exact transform_unsupported_of_none d platform repoCode layoutName variant hnone
  · constructor
    · intro herr
      cases hpf : d.platformField platform with
      | none =>
        exfalso
        have hun := transform_unsupported_of_none d platform repoCode layoutName variant hpf
        rw [herr] at hun
        have := Except.error.inj hun
        exact TransformError.noConfusion this
      | some pd =>
        cases hfd : hasDefaultLayer pd platform variant with
        | true =>
          exfalso
          have hok := transform_ok_of_hasDefault d platform repoCode layoutName
            variant pd hpf hfd
          rw [herr] at hok
          simp [Except.toOption] at hok
        | false => exact ⟨pd, rfl, hfd⟩
    · intro hex
      obtain ⟨pd, hpf, hfd⟩ := hex
      exact transform_missingLayer_of_noDefault d platform repoCode layoutName variant
        pd hpf hfd

/-- C6 witness: transforming a definition with no platforms at all fails
with the unsupported-platform error for macOS. -/
theorem transform_failure_C6_witness :
    transformKbdgenToLayout ({} : KbdgenLayout) "macOS" "r" "l" "primary" =
      .error (.unsupportedPlatform "macOS") :=
  ((transform_failure_C6 ({} : KbdgenLayout) "macOS" "r" "l" "primary"
    (by decide)).1).mpr rfl

/-! ## Claim C7 -/

/-- iOS definition that only carries a primary variant. -/
def c7kbd : KbdgenLayout :=
  { iOS := some { primary := some { layers := some [("default", "q w e")] } } }

/-- C7 counterexample: requesting the absent variant "iPad-9in" fails with
the missing-layer error instead of falling back to the primary variant —
even though transforming the primary variant of the same definition
succeeds. -/
theorem mobile_variant_no_fallback_C7_cex :
    transformKbdgenToLayout c7kbd "iOS" "sme" "se" "iPad-9in" =
      .error (.missingLayer "iOS" "iPad-9in") ∧
    (transformKbdgenToLayout c7kbd "iOS" "sme" "se" "primary").toOption.isSome = true :=
  ⟨rfl, rfl⟩

/-- C7 amended: a mobile transform request naming a variant other than
"primary" that is absent from the platform data does NOT fall back to the
primary variant: it fails with the missing-layer error.  Only the default
variant "primary" reads the primary data of the platform. -/
theorem mobile_variant_no_fallback_C7 :
    ∀ (d : KbdgenLayout) (platform repoCode layoutName variant : String)
      (pd : KbdgenPlatformData),
      isMobilePlatform platform = true →
      d.platformField platform = some pd →
      variant ≠ "primary" →
      (pd.variantField variant).bind (fun v => v.layers) = none →
      transformKbdgenToLayout d platform repoCode layoutName variant =
        .error (.missingLayer platform variant) := by
  intro d platform repoCode layoutName variant pd hm hpd hvar hnl
  have hr : resolvedLayers pd platform variant = none := by
    have hcond : (variant != "primary" && isMobilePlatform platform) = true := by
      simp [hvar, hm]
    simp [resolvedLayers, hcond, hnl]
  simp [transformKbdgenToLayout, hm, transformMobileLayout,
    extractPlatformData, hpd, hr]

/-- C7 witness: the amended theorem applied to the iOS-primary-only
definition with the absent variant "iPad-9in". -/
theorem mobile_variant_no_fallback_C7_witness :
    transformKbdgenToLayout c7kbd "iOS" "x" "y" "iPad-9in" =
      .error (.missingLayer "iOS" "iPad-9in") :=
  mobile_variant_no_fallback_C7 c7kbd "iOS" "x" "y" "iPad-9in"
    { primary := some { layers := some [("default", "q w e")] } }
    rfl rfl (by decide) rfl


/-! ## Claim C10 -/

/-- The per-key invariant of the desktop transformer output: a `default`
entry is always present, and every present non-default entry is non-empty. -/
abbrev KeyWellFormed (key : Key) : Prop :=
  (key.layers.lookup "default").isSome = true ∧
  ∀ p ∈ key.layers, p.1 ≠ "default" → p.2 ≠ ""

/-- Every entry collected by `desktopExtraLayers` is non-empty. -/
theorem desktopExtraLayers_ne (layersData : List (String × List (List String)))
    (rowIndex keyIndex : Nat) (q : String × String)
    (hq : q ∈ desktopExtraLayers layersData rowIndex keyIndex) : q.2 ≠ "" := by
  unfold desktopExtraLayers at hq
  obtain ⟨ln, hln, hg⟩ := List.mem_filterMap.mp hq
  cases hcell : (layersData.lookup ln).bind (fun g => g[rowIndex]?) with
  | none => rw [hcell] at hg; simp at hg
  | some rowData =>
    rw [hcell] at hg
    dsimp only at hg
    cases hc : rowData[keyIndex]? with
    | none => rw [hc] at hg; simp at hg
    | some char =>
      rw [hc] at hg
      dsimp only at hg
      by_cases hch : (char != "") = true
      · have hqe : (ln, char) = q := by simpa [hch] using hg
        have hchar : char ≠ "" := by simpa using hch
        rw [← hqe]
        exact hchar
      · simp [hch] at hg

/-- Every key built by `desktopKeyAt` satisfies the invariant. -/
theorem desktopKeyAt_wf (layersData : List (String × List (List String)))
    (rowIndex keyIndex : Nat) (keyId : String) :
    KeyWellFormed (desktopKeyAt layersData rowIndex keyIndex keyId) := by
  constructor
  · simp [desktopKeyAt, List.lookup]
  · intro q hq hne
    simp only [desktopKeyAt, List.mem_cons] at hq
    rcases hq with hq | hq
    · exact absurd (by rw [hq]) hne
    · exact desktopExtraLayers_ne _ _ _ _ hq

/-- Every key of a desktop keyboard row satisfies the invariant. -/
theorem createKeyboardRow_wf (keyPositions : List String)
    (layersData : List (String × List (List String))) (rowIndex : Nat) (key : Key)
    (hk : key ∈ createKeyboardRow keyPositions layersData rowIndex) :
    KeyWellFormed key := by
  unfold createKeyboardRow at hk
  obtain ⟨p, hp, hfp⟩ := List.mem_map.mp hk
  rw [← hfp]
  exact desktopKeyAt_wf _ _ _ _

/-- C10: every key produced by the desktop path of the transformer has a
`default` layer entry, and every present non-default entry is a non-empty
string; moreover when the default-layer source cell for a position is
undefined, the `default` entry of the key is the empty string. -/
theorem desktop_key_invariant_C10 :
    (∀ (d : KbdgenLayout) (platform repoCode layoutName variant : String)
      (L : KeyboardLayout),
      isMobilePlatform platform = false →
      transformKbdgenToLayout d platform repoCode layoutName variant = .ok L →
      ∀ row ∈ L.rows, ∀ key ∈ row.keys, KeyWellFormed key) ∧
    (∀ (keyPositions : List String) (layersData : List (String × List (List String)))
      (rowIndex keyIndex : Nat) (key : Key),
      (createKeyboardRow keyPositions layersData rowIndex)[keyIndex]? = some key →
      (((layersData.lookup "default").bind (fun g => g[rowIndex]?)).bind
        (fun row => row[keyIndex]?)) = none →
      key.layers.lookup "default" = some "") := by
  constructor
  · intro d platform repoCode layoutName variant L hmob htr row hrow key hkey
    rw [transformKbdgenToLayout, hmob] at htr
    simp only [Bool.false_eq_true, if_false] at htr
    unfold transformDesktopLayout at htr
    cases hext : extractPlatformData d platform "primary" with
    | error e =>
      rw [hext] at htr
      exact absurd htr (by simp)
    | ok pair =>
      obtain ⟨layers, transforms⟩ := pair
      rw [hext] at htr
      have hrows := congrArg KeyboardLayout.rows (Except.ok.inj htr)
      rw [← hrows] at hrow
      dsimp only at hrow
      simp only [List.mem_append] at hrow
      rcases hrow with ((((h0 | h1) | h2) | h3) | h4)
      · by_cases c : (((layers.filterMap fun p =>
            if p.2 != "" then some (p.1, parseLayerString p.2) else none).lookup
              "default").bind (fun g => g[0]?)).isSome
        · rw [if_pos c] at h0
          have hr := List.mem_singleton.mp h0
          rw [hr] at hkey
          simp only [List.mem_append, List.mem_singleton] at hkey
          rcases hkey with hkey | hkey
          · exact createKeyboardRow_wf _ _ _ _ hkey
          · rw [hkey]; decide
        · rw [if_neg c] at h0
          simp at h0
      · by_cases c : (((layers.filterMap fun p =>
            if p.2 != "" then some (p.1, parseLayerString p.2) else none).lookup
              "default").bind (fun g => g[1]?)).isSome
        · rw [if_pos c] at h1
          have hr := List.mem_singleton.mp h1
          rw [hr] at hkey
          simp only [List.mem_append, List.mem_cons, List.mem_singleton,
            List.not_mem_nil, or_false] at hkey
          rcases hkey with (hkey | hkey) | hkey
          · rw [hkey]; decide
          · exact createKeyboardRow_wf _ _ _ _ hkey
          · rw [hkey]; decide
        · rw [if_neg c] at h1
          simp at h1
      · by_cases c : (((layers.filterMap fun p =>
            if p.2 != "" then some (p.1, parseLayerString p.2) else none).lookup
              "default").bind (fun g => g[2]?)).isSome
        · rw [if_pos c] at h2
          have hr := List.mem_singleton.mp h2
          rw [hr] at hkey
          simp only [List.mem_append, List.mem_cons, List.not_mem_nil, or_false] at hkey
          rcases hkey with hkey | hkey
          · rw [hkey]; decide
          · exact createKeyboardRow_wf _ _ _ _ hkey
        · rw [if_neg c] at h2
          simp at h2
      · by_cases c : (((layers.filterMap fun p =>
            if p.2 != "" then some (p.1, parseLayerString p.2) else none).lookup
              "default").bind (fun g => g[3]?)).isSome
        · rw [if_pos c] at h3
          have hr := List.mem_singleton.mp h3
          rw [hr] at hkey
          simp only [List.mem_append, List.mem_cons, List.mem_singleton,
            List.not_mem_nil, or_false] at hkey
          rcases hkey with (hkey | hkey) | hkey
          · rw [hkey]; decide
          · exact createKeyboardRow_wf _ _ _ _ hkey
          · rw [hkey]; decide
        · rw [if_neg c] at h3
          simp at h3
      · have hr := List.mem_singleton.mp h4
        have hkeys : key ∈ [controlLeftKey, metaLeftKey, altLeftKey, spaceKey,
            altRightKey, metaRightKey, controlRightKey] := by
          rw [hr] at hkey
          exact hkey
        simp only [List.mem_cons, List.not_mem_nil, or_false] at hkeys
        rcases hkeys with h | h | h | h | h | h | h <;> rw [h] <;> decide
  · intro keyPositions layersData rowIndex keyIndex key hk hcell
    unfold createKeyboardRow at hk
    rw [List.getElem?_map, List.getElem?_enum] at hk
    cases hpos : keyPositions[keyIndex]? with
    | none => rw [hpos] at hk; simp at hk
    | some keyId =>
      rw [hpos] at hk
      have hkey : desktopKeyAt layersData rowIndex keyIndex keyId = key := by
        simpa using hk
      rw [← hkey]
      simp [desktopKeyAt, desktopDefaultCell, hcell, List.lookup]

/-- C10 witness: the cell-undefined part of the invariant applied at a
concrete grid — position "Digit2" of a two-cell default row gets the empty
default entry. -/
theorem desktop_key_invariant_C10_witness :
    (desktopKeyAt [("default", [["q", "w"]])] 0 2 "Digit2").layers.lookup "default" =
      some "" :=
  desktop_key_invariant_C10.2 isoRow1 [("default", [["q", "w"]])] 0 2
    (desktopKeyAt [("default", [["q", "w"]])] 0 2 "Digit2") rfl rfl


end KeyboardViewer
